import Mathlib

/-!
Verification of `mmcls/metrics/single_label.py`.

The Python module computes classification metrics from predictions and
ground-truth labels.  We give a shallow embedding: score tensors become
`List (List ℚ)`, label tensors become `List ℤ` / `List Nat`, the boolean
one-hot indicator matrices become `List (List Bool)`, and every fallible
code path returns `Except MetricError`.  Exact rational arithmetic stands
in for the floating-point arithmetic of the source; the float32 epsilon
constant used by the code is the exact rational `2 ^ (-23)`.
-/

/-- Python exception kinds raised by the metric code paths. -/
inductive MetricError
  | assertionError (msg : String)
  | valueError (msg : String)
  | keyError (msg : String)
  | runtimeError (msg : String)
  | zeroDivisionError (msg : String)
deriving DecidableEq

deriving instance DecidableEq for Except

/-- Message of the sample-count assertion in `Accuracy.calculate` and
`SingleLabelMetric.calculate`. -/
def sizeMsg (n m : Nat) : String :=
  s!"The size of pred ({n}) doesn\x27t match the target ({m})."

/-- Message of the `ValueError` raised when the requested top-k exceeds the
number of classes (`Accuracy.calculate`). -/
def topkErrMsg (maxk C : Nat) : String :=
  s!"Top-{maxk} accuracy is unavailable since the number of categories is {C}."

/-- Context string appended by `Accuracy.compute_metrics` when it re-raises the
`ValueError` coming from `Accuracy.calculate`. -/
def evaluatorNote : String :=
  " Please check the `val_evaluator` and `test_evaluator` fields in your config file."

/-- Message of the invalid-`average` assertion. -/
def invalidAvgMsg : String :=
  "Invalid `average` argument, please specicy from [\x27micro\x27, \x27macro\x27, None]."

/-- Message of the missing-`num_classes` assertion in
`SingleLabelMetric.calculate`. -/
def numClassesMsg : String :=
  "Please specicy the `num_classes` if the `pred` is labels intead of scores."

/-- Message of the `ValueError` raised by `SingleLabelMetric.process`. -/
def slProcessMsg : String :=
  "The `pred_label` in predictions do not have neither `score` nor `num_classes`."

/-- Numeric value of a boolean matrix entry. -/
def boolNat (b : Bool) : Nat := if b then 1 else 0

/-- Sum of one row of a boolean indicator matrix. -/
def rowSum (row : List Bool) : Nat := (row.map boolNat).sum

/-- `m.sum()` of the torch code: sum of all entries of an indicator matrix. -/
def totalSum (m : List (List Bool)) : Nat := (m.map rowSum).sum

/-- `m.sum(0)` of the torch code, at column `c`: sum over the sample axis. -/
def colSum (m : List (List Bool)) (c : Nat) : Nat :=
  (m.map (fun row => boolNat (row.getD c false))).sum

/-- Elementwise `&` of two boolean rows. -/
def andRow (r₁ r₂ : List Bool) : List Bool := List.zipWith (fun a b => a && b) r₁ r₂

/-- Elementwise `pred_positive & gt_positive` of the torch code. -/
def andMat (m₁ m₂ : List (List Bool)) : List (List Bool) := List.zipWith andRow m₁ m₂

/-- `F.one_hot(l, C)`: boolean one-hot row of width `C` (all false if `l ≥ C`). -/
def oneHot (C l : Nat) : List Bool := (List.range C).map (fun c => decide (c = l))

/-- `torch.clamp(n, min=1.)` applied to a count. -/
def clampOne (n : Nat) : ℚ := max (n : ℚ) 1

/-- `torch.finfo(torch.float32).eps`, the exact rational value `2 ^ (-23)`. -/
def f1Eps : ℚ := 1 / 2 ^ 23

/-- `tp / torch.clamp(den, min=1.) * 100`: a precision/recall entry. -/
def prec (tp den : Nat) : ℚ := (tp : ℚ) / clampOne den * 100

/-- `2 * precision * recall / torch.clamp(precision + recall, min=eps)`. -/
def f1score (p r : ℚ) : ℚ := 2 * p * r / max (p + r) f1Eps

/-- `v.mean(0)` of a vector of length `C`. -/
def meanQ (l : List ℚ) : ℚ := l.sum / l.length

/-- The `average_options` list of the source. -/
def avgOptions : List (Option String) := [some "micro", some "macro", none]

/-- Return value of `_precision_recall_f1_support`.  Averaged results are
singleton lists (0-dim tensors); `average=None` results have length `C`. -/
structure ReduceOut where
  precision : List ℚ
  recall' : List ℚ
  f1_score : List ℚ
  support : List ℚ
deriving DecidableEq

/-- `_precision_recall_f1_support(pred_positive, gt_positive, average)`.
`C` is the column count of the two matrices (carried by the tensor shape in
the source). -/
def precision_recall_f1_support (C : Nat) (pred_positive gt_positive : List (List Bool))
    (average : Option String) : Except MetricError ReduceOut :=
  if average ∈ avgOptions then
    if average = some "micro" then
      let tp_sum := totalSum (andMat pred_positive gt_positive)
      let pred_sum := totalSum pred_positive
      let gt_sum := totalSum gt_positive
      let p := prec tp_sum pred_sum
      let r := prec tp_sum gt_sum
      .ok ⟨[p], [r], [f1score p r], [(gt_sum : ℚ)]⟩
    else
      let tp := fun c => colSum (andMat pred_positive gt_positive) c
      let ps := fun c => colSum pred_positive c
      let gs := fun c => colSum gt_positive c
      let precs := (List.range C).map (fun c => prec (tp c) (ps c))
      let recs := (List.range C).map (fun c => prec (tp c) (gs c))
      let f1s := (List.range C).map (fun c => f1score (prec (tp c) (ps c)) (prec (tp c) (gs c)))
      if average = some "macro" then
        .ok ⟨[meanQ precs], [meanQ recs], [meanQ f1s], [(((List.range C).map gs).sum : ℚ)]⟩
      else
        .ok ⟨precs, recs, f1s, (List.range C).map (fun c => ((gs c : ℚ)))⟩
  else .error (.assertionError invalidAvgMsg)

/-- Error-propagating elementwise map, mirroring a Python `for` loop whose body
may raise: the first raised exception aborts the loop. -/
def exceptMap {α β : Type} (f : α → Except MetricError β) : List α → Except MetricError (List β)
  | [] => .ok []
  | a :: as =>
    match f a with
    | .error e => .error e
    | .ok b =>
      match exceptMap f as with
      | .error e => .error e
      | .ok bs => .ok (b :: bs)

/-- Concatenation of two error-propagating results: the buffer grows only
when no exception was raised, and the first exception wins. -/
def exceptAppend {β : Type} (e₁ e₂ : Except MetricError (List β)) :
    Except MetricError (List β) :=
  match e₁ with
  | .error e => .error e
  | .ok b₁ =>
    match e₂ with
    | .error e => .error e
    | .ok b₂ => .ok (b₁ ++ b₂)

/-- Insertion step of a stable descending sort on `(index, score)` pairs. -/
def insertDesc (p : Nat × ℚ) : List (Nat × ℚ) → List (Nat × ℚ)
  | [] => [p]
  | q :: qs => if p.2 < q.2 then q :: insertDesc p qs else p :: q :: qs

/-- Stable descending sort by score, modelling the order produced by
`torch.topk` / `torch.sort` on one row. -/
def sortDesc : List (Nat × ℚ) → List (Nat × ℚ)
  | [] => []
  | x :: xs => insertDesc x (sortDesc xs)

/-- All classes of one score row ranked by decreasing score, as
`(class index, score)` pairs. -/
def ranked (row : List ℚ) : List (Nat × ℚ) := sortDesc row.enum

/-- `torch.topk(row, k=1)`: the top-scoring `(class index, score)` pair of one
row (junk `(0, 0)` on an empty row, which the source rejects). -/
def top1 (row : List ℚ) : Nat × ℚ := (ranked row).headD (0, 0)

/-- The `pred` argument of `SingleLabelMetric.calculate`: a 1-D label tensor or
a 2-D score tensor. -/
inductive SLPredInput
  | labels (ls : List Nat)
  | scores (rows : List (List ℚ))

/-- `pred.size(0)`. -/
def SLPredInput.size0 : SLPredInput → Nat
  | .labels ls => ls.length
  | .scores rows => rows.length

/-- Return value of `SingleLabelMetric.calculate`: one tuple for a 1-D label
input, one tuple per threshold for a 2-D score input. -/
inductive SLCalcOut
  | single (r : ReduceOut)
  | perThr (rs : List ReduceOut)
deriving DecidableEq

/-- The row-zeroing test `pred_score <= thr` (`thr=None` keeps every row). -/
def slThrGate (thr : Option ℚ) (score : ℚ) : Bool :=
  match thr with
  | none => false
  | some t => decide (score ≤ t)

/-- `SingleLabelMetric.calculate(pred, target, thrs, average, num_classes)`. -/
def SingleLabelMetric.calculate (pred : SLPredInput) (target : List Nat)
    (thrs : List (Option ℚ)) (average : Option String) (num_classes : Option Nat) :
    Except MetricError SLCalcOut :=
  if average ∈ avgOptions then
    if pred.size0 ≠ target.length then
      .error (.assertionError (sizeMsg pred.size0 target.length))
    else
      match pred with
      | .labels ls =>
        match num_classes with
        | none => .error (.assertionError numClassesMsg)
        | some C =>
          match precision_recall_f1_support C (ls.map (oneHot C)) (target.map (oneHot C)) average with
          | .error e => .error e
          | .ok r => .ok (.single r)
      | .scores rows =>
        let C := (rows.head?.getD []).length
        let tops := rows.map top1
        let gt_positive := target.map (oneHot C)
        match exceptMap (fun thr =>
            precision_recall_f1_support C
              (tops.map (fun sl => if slThrGate thr sl.2 then List.replicate C false else oneHot C sl.1))
              gt_positive average) thrs with
        | .error e => .error e
        | .ok rs => .ok (.perThr rs)
  else .error (.assertionError invalidAvgMsg)

/-- The `pred` argument of `Accuracy.calculate`: a 1-D label tensor or a 2-D
score tensor. -/
inductive PredInput
  | labels (ls : List ℤ)
  | scores (rows : List (List ℚ))

/-- `pred.size(0)`. -/
def PredInput.size0 : PredInput → Nat
  | .labels ls => ls.length
  | .scores rows => rows.length

/-- Return value of `Accuracy.calculate`: a single top-1 accuracy for a 1-D
label input, or a table indexed by `topk` then `thrs` for a 2-D score input. -/
inductive AccOutput
  | single (a : ℚ)
  | table (t : List (List ℚ))
deriving DecidableEq

/-- `pred.eq(target).sum()` of the 1-D label branch of `Accuracy.calculate`. -/
def correctCountLabels (pred target : List ℤ) : Nat :=
  (pred.zip target).countP (fun p => decide (p.1 = p.2))

/-- The gating test of the score branch: a hit only counts when the matching
score exceeds the threshold (`thr=None` means no gating). -/
def accThrPass (thr : Option ℚ) (score : ℚ) : Bool :=
  match thr with
  | none => true
  | some t => decide (t < score)

/-- The first `k` ranked `(class index, score)` pairs of one score row:
the rows `pred_label[:k]` / `pred_score[:k]` restricted to one sample. -/
def topkPairs (row : List ℚ) (k : Nat) : List (Nat × ℚ) := (ranked row).take k

/-- Number of correct top-`k` hits contributed by one sample: entries of
`_correct[:k]` in this sample's column. -/
def samplePairCount (row : List ℚ) (t : ℤ) (k : Nat) (thr : Option ℚ) : Nat :=
  (topkPairs row k).countP (fun p => decide ((p.1 : ℤ) = t) && accThrPass thr p.2)

/-- `_correct[:k].reshape(-1).sum()`: total correct count for one `(k, thr)`
configuration. -/
def correctCountScores (rows : List (List ℚ)) (target : List ℤ) (k : Nat)
    (thr : Option ℚ) : Nat :=
  ((rows.zip target).map (fun rt => samplePairCount rt.1 rt.2 k thr)).sum

/-- One entry of the result table of the score branch of `Accuracy.calculate`:
`correct_k.mul_(100. / num)`. -/
def accEntry (rows : List (List ℚ)) (target : List ℤ) (k : Nat) (thr : Option ℚ) : ℚ :=
  (correctCountScores rows target k thr : ℚ) * (100 / (rows.length : ℚ))

/-- Python `max(topk)` on a non-empty list of naturals. -/
def maxList (l : List Nat) : Nat := l.foldr max 0

/-- `Accuracy.calculate(pred, target, topk, thrs)`. -/
def Accuracy.calculate (pred : PredInput) (target : List ℤ) (topk : List Nat)
    (thrs : List (Option ℚ)) : Except MetricError AccOutput :=
  let num := pred.size0
  if num ≠ target.length then .error (.assertionError (sizeMsg num target.length))
  else
    match pred with
    | .labels ls =>
      if ls.length = 0 then .error (.zeroDivisionError "float division by zero")
      else .ok (.single ((correctCountLabels ls target : ℚ) * (100 / (ls.length : ℚ))))
    | .scores rows =>
      if topk = [] then .error (.valueError "max() arg is an empty sequence")
      else
        let maxk := maxList topk
        if maxk > (rows.head?.getD []).length then
          .error (.valueError (topkErrMsg maxk (rows.head?.getD []).length))
        else if rows.length = 0 ∧ thrs ≠ [] then
          .error (.zeroDivisionError "float division by zero")
        else
          .ok (.table (topk.map (fun k => thrs.map (fun thr => accEntry rows target k thr))))

/-- One `data_batch` record seen by `process`: the `data_sample` dict. -/
structure AccDataDict where
  gt : ℤ

/-- One prediction record seen by `Accuracy.process`: the `pred_label` dict
(`score` or `label`) and the optional `gt_label` override. -/
structure AccPredDict where
  score : Option (List ℚ)
  label : ℤ
  gt : Option ℤ

/-- One element of `self.results` of the `Accuracy` engine. -/
inductive AccResult
  | score (ps : List ℚ) (gt : ℤ)
  | label (pl : ℤ) (gt : ℤ)
deriving DecidableEq

/-- The stored `gt_label` of a result record. -/
def AccResult.gtLabel : AccResult → ℤ
  | .score _ g => g
  | .label _ g => g

/-- Body of the `for data, pred in zip(...)` loop of `Accuracy.process`:
the record appended for one sample. -/
def Accuracy.processOne (data : AccDataDict) (pred : AccPredDict) : AccResult :=
  let g := pred.gt.getD data.gt
  match pred.score with
  | some s => .score s g
  | none => .label pred.label g

/-- `Accuracy.process(data_batch, predictions)`: the records appended to
`self.results` for one batch. -/
def Accuracy.process (data_batch : List AccDataDict) (predictions : List AccPredDict) :
    List AccResult :=
  (data_batch.zip predictions).map (fun dp => Accuracy.processOne dp.1 dp.2)

/-- `res['pred_score']`: raises `KeyError` on a label-only record. -/
def getPredScore : AccResult → Except MetricError (List ℚ)
  | .score s _ => .ok s
  | .label _ _ => .error (.keyError "pred_score")

/-- `res['pred_label']`: raises `KeyError` on a score record. -/
def getPredLabel : AccResult → Except MetricError ℤ
  | .label l _ => .ok l
  | .score _ _ => .error (.keyError "pred_label")

/-- Python `f'{q:.2f}'` fixed-point rendering of a rational. -/
def format2f (q : ℚ) : String :=
  let n : ℤ := round (q * 100)
  let sign := if n < 0 then "-" else ""
  let m := n.natAbs
  sign ++ toString (m / 100) ++ "." ++ (if m % 100 < 10 then "0" else "") ++ toString (m % 100)

/-- Metric-name suffix used when several thresholds are configured:
`'_no-thr' if thr is None else f'_thr-{thr:.2f}'`. -/
def thrSuffix (thr : Option ℚ) : String :=
  match thr with
  | none => "_no-thr"
  | some t => "_thr-" ++ format2f t

/-- `Accuracy.compute_metrics(results)` with configuration `topk`, `thrs`. -/
def Accuracy.compute_metrics (topk : List Nat) (thrs : List (Option ℚ))
    (results : List AccResult) : Except MetricError (List (String × ℚ)) :=
  match results with
  | [] => .error (.runtimeError "torch.cat(): expected a non-empty list of Tensors")
  | r0 :: _ =>
    let target := results.map AccResult.gtLabel
    match r0 with
    | .score _ _ =>
      match exceptMap getPredScore results with
      | .error e => .error e
      | .ok pred =>
        match Accuracy.calculate (.scores pred) target topk thrs with
        | .error (.valueError e) => .error (.valueError (e ++ evaluatorNote))
        | .error e => .error e
        | .ok (.table tbl) =>
          let multi := decide (1 < thrs.length)
          .ok (((topk.zip tbl).map (fun kt =>
            (thrs.zip kt.2).map (fun ta =>
              (s!"top{kt.1}" ++ (if multi then thrSuffix ta.1 else ""), ta.2)))).flatten)
        | .ok (.single _) => .error (.runtimeError "unreachable: 2-D scores yield a table")
    | .label _ _ =>
      match exceptMap getPredLabel results with
      | .error e => .error e
      | .ok pred =>
        match Accuracy.calculate (.labels pred) target topk thrs with
        | .error e => .error e
        | .ok (.single a) => .ok [("top1", a)]
        | .ok (.table _) => .error (.runtimeError "unreachable: 1-D labels yield a scalar")

/-- One `data_sample` dict seen by `SingleLabelMetric.process`. -/
structure SLDataDict where
  gt : Nat
  num_classes : Option Nat

/-- One prediction record seen by `SingleLabelMetric.process`. -/
structure SLPredDict where
  score : Option (List ℚ)
  label : Nat
  num_classes : Option Nat
  gt : Option Nat

/-- One element of `self.results` of the `SingleLabelMetric` engine. -/
inductive SLResult
  | score (ps : List ℚ) (gt : Nat)
  | label (pl : Nat) (nc : Nat) (gt : Nat)
deriving DecidableEq

/-- The stored `gt_label` of a result record. -/
def SLResult.gtLabel : SLResult → Nat
  | .score _ g => g
  | .label _ _ g => g

/-- Body of the loop of `SingleLabelMetric.process`.  The `num_classes` stored
is `pred_label.get('num_classes', None) or data_sample['num_classes']` (Python
`or`: a missing or zero prediction-side value falls back to the data sample,
and a fallback to a missing key raises `KeyError`). -/
def SingleLabelMetric.processOne (data : SLDataDict) (pred : SLPredDict) :
    Except MetricError SLResult :=
  let g := pred.gt.getD data.gt
  match pred.score with
  | some s => .ok (.score s g)
  | none =>
    if pred.num_classes.isSome || data.num_classes.isSome then
      match (match pred.num_classes with
             | some n => if n = 0 then none else some n
             | none => none) with
      | some n => .ok (.label pred.label n g)
      | none =>
        match data.num_classes with
        | some n => .ok (.label pred.label n g)
        | none => .error (.keyError "num_classes")
    else .error (.valueError slProcessMsg)

/-- `SingleLabelMetric.process(data_batch, predictions)` for one batch. -/
def SingleLabelMetric.process (data_batch : List SLDataDict) (predictions : List SLPredDict) :
    Except MetricError (List SLResult) :=
  exceptMap (fun dp => SingleLabelMetric.processOne dp.1 dp.2) (data_batch.zip predictions)

/-- `res['pred_score']` on a `SingleLabelMetric` record. -/
def getSLScore : SLResult → Except MetricError (List ℚ)
  | .score s _ => .ok s
  | .label _ _ _ => .error (.keyError "pred_score")

/-- `res['pred_label']` on a `SingleLabelMetric` record. -/
def getSLLabel : SLResult → Except MetricError Nat
  | .label l _ _ => .ok l
  | .score _ _ => .error (.keyError "pred_label")

/-- A finalized metric value: scalar (`.item()`) or per-class list
(`.tolist()`). -/
inductive MetricValue
  | scalar (q : ℚ)
  | classwise (l : List ℚ)
deriving DecidableEq

/-- The `pack_results` closure of `SingleLabelMetric.compute_metrics`. -/
def packResults (items : List String) (r : ReduceOut) : List (String × List ℚ) :=
  (if "precision" ∈ items then [("precision", r.precision)] else []) ++
  (if "recall" ∈ items then [("recall", r.recall')] else []) ++
  (if "f1-score" ∈ items then [("f1-score", r.f1_score)] else []) ++
  (if "support" ∈ items then [("support", r.support)] else [])

/-- The final renaming loop of `SingleLabelMetric.compute_metrics`:
`_classwise` list values for `average=None`, `_micro`-suffixed scalars for
`average='micro'`, plain scalars otherwise. -/
def postProcess (average : Option String) (metrics : List (String × List ℚ)) :
    List (String × MetricValue) :=
  metrics.map (fun kv =>
    if average = none then (kv.1 ++ "_classwise", .classwise kv.2)
    else if average = some "micro" then (kv.1 ++ "_micro", .scalar kv.2.headI)
    else (kv.1, .scalar kv.2.headI))

/-- `SingleLabelMetric.compute_metrics(results)` with configuration `thrs`,
`items`, `average`. -/
def SingleLabelMetric.compute_metrics (thrs : List (Option ℚ)) (items : List String)
    (average : Option String) (results : List SLResult) :
    Except MetricError (List (String × MetricValue)) :=
  match results with
  | [] => .error (.runtimeError "torch.cat(): expected a non-empty list of Tensors")
  | r0 :: _ =>
    let target := results.map SLResult.gtLabel
    match r0 with
    | .score _ _ =>
      match exceptMap getSLScore results with
      | .error e => .error e
      | .ok pred =>
        match SingleLabelMetric.calculate (.scores pred) target thrs average none with
        | .error e => .error e
        | .ok (.perThr rs) =>
          let multi := decide (1 < thrs.length)
          let metrics := ((thrs.zip rs).map (fun tr =>
            (packResults items tr.2).map (fun kv =>
              (kv.1 ++ (if multi then thrSuffix tr.1 else ""), kv.2)))).flatten
          .ok (postProcess average metrics)
        | .ok (.single _) => .error (.runtimeError "unreachable: 2-D scores yield one tuple per threshold")
    | .label _ nc _ =>
      match exceptMap getSLLabel results with
      | .error e => .error e
      | .ok pred =>
        match SingleLabelMetric.calculate (.labels pred) target thrs average (some nc) with
        | .error e => .error e
        | .ok (.single r) => .ok (postProcess average (packResults items r))
        | .ok (.perThr _) => .error (.runtimeError "unreachable: 1-D labels yield one tuple")

/-- Running `Accuracy.process` over a whole run: the concatenated contents of
`self.results` after every batch has been processed. -/
def Accuracy.accumulate : List (List AccDataDict × List AccPredDict) → List AccResult
  | [] => []
  | b :: bs => Accuracy.process b.1 b.2 ++ Accuracy.accumulate bs

/-- Running `SingleLabelMetric.process` over a whole run. -/
def SingleLabelMetric.accumulate :
    List (List SLDataDict × List SLPredDict) → Except MetricError (List SLResult)
  | [] => .ok []
  | b :: bs => exceptAppend (SingleLabelMetric.process b.1 b.2) (SingleLabelMetric.accumulate bs)

/-- Finalization of a `SingleLabelMetric` run: an exception raised during
processing propagates; otherwise the accumulated results are reduced. -/
def SingleLabelMetric.finalize (thrs : List (Option ℚ)) (items : List String)
    (average : Option String) (rsE : Except MetricError (List SLResult)) :
    Except MetricError (List (String × MetricValue)) :=
  match rsE with
  | .error e => .error e
  | .ok rs => SingleLabelMetric.compute_metrics thrs items average rs

/-- The smallest positive representable IEEE-754 binary32 value, the exact
rational `2 ^ (-149)` (the least positive subnormal).  This is the constant
the specification describes as ε; the code instead uses
`torch.finfo(torch.float32).eps = 2 ^ (-23)`, the float32 machine epsilon. -/
def smallestPosFloat32 : ℚ := 1 / 2 ^ 149

/-- The f1 formula as the specification words it, with ε taken to be the
smallest positive representable float32 value.  Declared for comparison with
`f1score`, which follows the source. -/
def f1score_specEps (p r : ℚ) : ℚ := 2 * p * r / max (p + r) smallestPosFloat32

/-- Claim C1: for `pred=[0,1,1,3]`, `target=[0,2,1,3]`, `num_classes=4` and
`average="macro"`, `SingleLabelMetric.calculate` returns precision `62.5`,
recall `75.0`, f1 `200/3 ≈ 66.6667` and support `4`. -/
theorem single_label_example :
    SingleLabelMetric.calculate (.labels [0, 1, 1, 3]) [0, 2, 1, 3] [some 0] (some "macro") (some 4)
      = .ok (.single ⟨[62.5], [75], [200 / 3], [4]⟩) := by
  norm_num [SingleLabelMetric.calculate, SLPredInput.size0, precision_recall_f1_support,
    avgOptions, show List.range 4 = [0, 1, 2, 3] from rfl, oneHot, prec, clampOne, f1score,
    f1Eps, meanQ, colSum, totalSum, rowSum, andMat, andRow, boolNat]
  rfl

/-- Claim C6: on a 1-D label prediction of positive length `N` matching the
target length, `Accuracy.calculate` returns the single value
`100 * count(pred == target) / N` and ignores the `topk` and `thrs`
arguments entirely.  In particular `pred=[0,2,1,3]`, `target=[0,1,2,3]`
yields `50` and entrywise-equal inputs yield `100` (see the witness). -/
theorem accuracy_label_mode (ls target : List ℤ) (topk topk' : List Nat)
    (thrs thrs' : List (Option ℚ)) (hlen : ls.length = target.length)
    (hpos : 0 < ls.length) :
    Accuracy.calculate (.labels ls) target topk thrs
      = .ok (.single (100 * (correctCountLabels ls target : ℚ) / (ls.length : ℚ))) ∧
    Accuracy.calculate (.labels ls) target topk thrs
      = Accuracy.calculate (.labels ls) target topk' thrs' := by
  refine ⟨?_, rfl⟩
  have h2 : ¬ ls.length = 0 := by omega
  have hv : (correctCountLabels ls target : ℚ) * (100 / (ls.length : ℚ))
      = 100 * (correctCountLabels ls target : ℚ) / (ls.length : ℚ) := by ring
  simp only [Accuracy.calculate, PredInput.size0, if_neg h2, hv]
  rw [if_neg (show ¬ ls.length ≠ target.length by omega)]

/-- Witness for C6: the two concrete examples of the claim, computed through
`accuracy_label_mode`. -/
theorem accuracy_label_mode_witness :
    Accuracy.calculate (.labels [0, 2, 1, 3]) [0, 1, 2, 3] [1] [some 0]
      = .ok (.single 50) ∧
    Accuracy.calculate (.labels [0, 2, 1, 3]) [0, 2, 1, 3] [1] [some 0]
      = .ok (.single 100) := by
  constructor
  · have h := (accuracy_label_mode [0, 2, 1, 3] [0, 1, 2, 3] [1] [1] [some 0] [some 0]
      (by decide) (by decide)).1
    rw [h]
    norm_num [show correctCountLabels [0, 2, 1, 3] [0, 1, 2, 3] = 2 from by decide]
  · have h := (accuracy_label_mode [0, 2, 1, 3] [0, 2, 1, 3] [1] [1] [some 0] [some 0]
      (by decide) (by decide)).1
    rw [h]
    norm_num [show correctCountLabels [0, 2, 1, 3] [0, 2, 1, 3] = 4 from by decide]

/-- Claim C9: when the number of prediction samples differs from the number of
target samples, both `Accuracy.calculate` and `SingleLabelMetric.calculate`
fail with the sample-count assertion, returning no metric value. -/
theorem size_mismatch_error :
    (∀ (pred : PredInput) (target : List ℤ) (topk : List Nat) (thrs : List (Option ℚ)),
      pred.size0 ≠ target.length →
      Accuracy.calculate pred target topk thrs
        = .error (.assertionError (sizeMsg pred.size0 target.length))) ∧
    (∀ (pred : SLPredInput) (target : List Nat) (thrs : List (Option ℚ))
      (average : Option String) (nc : Option Nat),
      average ∈ avgOptions → pred.size0 ≠ target.length →
      SingleLabelMetric.calculate pred target thrs average nc
        = .error (.assertionError (sizeMsg pred.size0 target.length))) := by
  constructor
  · intro pred target topk thrs h
    simp only [Accuracy.calculate, if_pos h]
  · intro pred target thrs average nc havg h
    simp only [SingleLabelMetric.calculate, if_pos havg, if_pos h]

/-- Witness for C9: a one-sample prediction against an empty target is
rejected by both calculators. -/
theorem size_mismatch_error_witness :
    Accuracy.calculate (.labels [0]) [] [1] [some 0]
      = .error (.assertionError (sizeMsg 1 0)) ∧
    SingleLabelMetric.calculate (.labels [0]) [] [some 0] (some "macro") (some 4)
      = .error (.assertionError (sizeMsg 1 0)) :=
  ⟨size_mismatch_error.1 (.labels [0]) [] [1] [some 0] (by decide),
   size_mismatch_error.2 (.labels [0]) [] [some 0] (some "macro") (some 4)
     (by decide) (by decide)⟩

/-- Counterexample for C2: the clamp constant the code uses is
`torch.finfo(torch.float32).eps = 2 ^ (-23)`, which is not the smallest
positive representable float32 value `2 ^ (-149)`, and the two choices of ε
produce different f1 values at `precision = recall = 2 ^ (-150)`. -/
theorem f1_eps_counterexample :
    f1Eps ≠ smallestPosFloat32 ∧
    f1score (1 / 2 ^ 150) (1 / 2 ^ 150) ≠ f1score_specEps (1 / 2 ^ 150) (1 / 2 ^ 150) := by
  constructor
  · norm_num [f1Eps, smallestPosFloat32]
  · rw [f1score, f1score_specEps,
      max_eq_right (by norm_num [f1Eps] : (1:ℚ) / 2 ^ 150 + 1 / 2 ^ 150 ≤ f1Eps),
      max_eq_left (by norm_num [smallestPosFloat32] :
        smallestPosFloat32 ≤ (1:ℚ) / 2 ^ 150 + 1 / 2 ^ 150)]
    norm_num [f1Eps]

/-- Claim C2 (amended): f1 is `2 * precision * recall / max(precision + recall, ε)`
where ε is the fixed constant `torch.finfo(torch.float32).eps = 2 ^ (-23)`
(the float32 machine epsilon, not the smallest positive representable value of
the computation's numeric type); the clamped denominator is positive, so f1 is
`0` rather than NaN when precision and recall are both `0`. -/
theorem f1_eps_clamp (p r : ℚ) :
    f1score p r = 2 * p * r / max (p + r) f1Eps ∧
    0 < max (p + r) f1Eps ∧
    f1Eps = 1 / 2 ^ 23 ∧
    (p = 0 → r = 0 → f1score p r = 0) := by
  refine ⟨rfl, ?_, rfl, ?_⟩
  · exact lt_of_lt_of_le (by norm_num [f1Eps]) (le_max_right _ _)
  · intro hp0 hr0
    simp [f1score, hp0, hr0]

/-- Witness for C2 (amended) at `precision = recall = 0`. -/
theorem f1_eps_clamp_witness :
    f1score 0 0 = 2 * 0 * 0 / max ((0:ℚ) + 0) f1Eps ∧
    0 < max ((0:ℚ) + 0) f1Eps ∧
    f1Eps = 1 / 2 ^ 23 ∧
    f1score 0 0 = 0 :=
  ⟨(f1_eps_clamp 0 0).1, (f1_eps_clamp 0 0).2.1, (f1_eps_clamp 0 0).2.2.1,
   (f1_eps_clamp 0 0).2.2.2 rfl rfl⟩

/-- Matrix `&` commutes with `getD` on rows, entrywise. -/
theorem andRow_getD (r₁ r₂ : List Bool) (c : Nat) :
    (andRow r₁ r₂).getD c false = ((r₁.getD c false) && (r₂.getD c false)) := by
  induction r₁ generalizing r₂ c with
  | nil => simp [andRow]
  | cons a as ih =>
    cases r₂ with
    | nil => simp [andRow]
    | cons b bs =>
      cases c with
      | zero => simp [andRow]
      | succ n => simpa [andRow] using ih bs n

/-- Column sums unfold along the sample axis. -/
theorem colSum_cons (row : List Bool) (m : List (List Bool)) (c : Nat) :
    colSum (row :: m) c = boolNat (row.getD c false) + colSum m c := by
  simp [colSum]

/-- A column of true positives is no larger than the corresponding column of
predicted positives. -/
theorem colSum_andMat_le (m₁ m₂ : List (List Bool)) (c : Nat) :
    colSum (andMat m₁ m₂) c ≤ colSum m₁ c := by
  induction m₁ generalizing m₂ with
  | nil => simp [andMat, colSum]
  | cons r rs ih =>
    cases m₂ with
    | nil => simp [andMat, colSum]
    | cons q qs =>
      have he : boolNat ((andRow r q).getD c false) ≤ boolNat (r.getD c false) := by
        rw [andRow_getD]
        cases r.getD c false <;> cases q.getD c false <;> simp [boolNat]
      simp only [andMat, List.zipWith_cons_cons]
      rw [colSum_cons, colSum_cons]
      exact Nat.add_le_add he (by simpa [andMat] using ih qs)

/-- A precision/recall entry with zero true positives and zero members is 0. -/
theorem prec_zero_zero : prec 0 0 = 0 := by
  norm_num [prec, clampOne]

/-- The f1 entry at `precision = recall = 0` is 0, not NaN. -/
theorem f1score_zero_zero : f1score 0 0 = 0 := by
  simp [f1score]

/-- Claim C3: in the per-class reduction, a class `c` with zero
predicted-positive and zero ground-truth-positive members has both division
denominators floored to `1`, and its precision, recall and f1 entries are all
the finite value `0`. -/
theorem degenerate_class_zero (C : Nat) (pp gp : List (List Bool)) (c : Nat)
    (hc : c < C) (hpred : colSum pp c = 0) (hgt : colSum gp c = 0) :
    clampOne (colSum pp c) = 1 ∧ clampOne (colSum gp c) = 1 ∧
    ∃ r : ReduceOut, precision_recall_f1_support C pp gp none = .ok r ∧
      r.precision[c]? = some 0 ∧ r.recall'[c]? = some 0 ∧
      r.f1_score[c]? = some 0 := by
  have htp : colSum (andMat pp gp) c = 0 :=
    Nat.le_antisymm (hpred ▸ colSum_andMat_le pp gp c) (Nat.zero_le _)
  refine ⟨by simp [clampOne, hpred], by simp [clampOne, hgt], ?_⟩
  have hred : precision_recall_f1_support C pp gp none
      = .ok ⟨(List.range C).map (fun i => prec (colSum (andMat pp gp) i) (colSum pp i)),
             (List.range C).map (fun i => prec (colSum (andMat pp gp) i) (colSum gp i)),
             (List.range C).map (fun i =>
               f1score (prec (colSum (andMat pp gp) i) (colSum pp i))
                       (prec (colSum (andMat pp gp) i) (colSum gp i))),
             (List.range C).map (fun i => ((colSum gp i : ℚ)))⟩ := by
    simp only [precision_recall_f1_support]
    rw [if_pos (by decide : (none : Option String) ∈ avgOptions),
      if_neg (by decide : ¬ (none : Option String) = some "micro"),
      if_neg (by decide : ¬ (none : Option String) = some "macro")]
  refine ⟨_, hred, ?_, ?_, ?_⟩
  · rw [List.getElem?_map, List.getElem?_range hc]
    simp [htp, hpred, prec_zero_zero]
  · rw [List.getElem?_map, List.getElem?_range hc]
    simp [htp, hgt, prec_zero_zero]
  · rw [List.getElem?_map, List.getElem?_range hc]
    simp [htp, hpred, hgt, prec_zero_zero, f1score_zero_zero]

/-- Witness for C3: class 1 of a 2-class run in which every sample is
predicted and labelled as class 0. -/
theorem degenerate_class_zero_witness :
    clampOne (colSum [[true, false]] 1) = 1 ∧ clampOne (colSum [[true, false]] 1) = 1 ∧
    ∃ r : ReduceOut, precision_recall_f1_support 2 [[true, false]] [[true, false]] none = .ok r ∧
      r.precision[1]? = some 0 ∧ r.recall'[1]? = some 0 ∧
      r.f1_score[1]? = some 0 :=
  degenerate_class_zero 2 [[true, false]] [[true, false]] 1 (by decide) (by decide) (by decide)

/-- On well-formed score input, `Accuracy.calculate` succeeds and its table is
the nested map of `accEntry` over `topk` and `thrs`. -/
theorem calculate_scores_ok (rows : List (List ℚ)) (target : List ℤ) (topk : List Nat)
    (thrs : List (Option ℚ)) (hlen : rows.length = target.length) (hne : topk ≠ [])
    (hmax : maxList topk ≤ (rows.head?.getD []).length) (hrows : rows ≠ []) :
    Accuracy.calculate (.scores rows) target topk thrs
      = .ok (.table (topk.map (fun k => thrs.map (fun thr => accEntry rows target k thr)))) := by
  simp only [Accuracy.calculate, PredInput.size0]
  rw [if_neg (show ¬ rows.length ≠ target.length by omega), if_neg hne,
    if_neg (show ¬ maxList topk > (rows.head?.getD []).length by omega),
    if_neg (show ¬ (rows.length = 0 ∧ thrs ≠ []) from
      fun h => hrows (List.length_eq_zero.mp h.1))]

/-- Raising the threshold can only lose top-`k` hits, per sample. -/
theorem samplePairCount_thr_mono (row : List ℚ) (t : ℤ) (k : Nat) (t1 t2 : ℚ)
    (h12 : t1 ≤ t2) :
    samplePairCount row t k (some t2) ≤ samplePairCount row t k (some t1) := by
  unfold samplePairCount
  apply List.countP_mono_left
  intro p _ hp
  simp only [Bool.and_eq_true, decide_eq_true_eq, accThrPass] at hp ⊢
  exact ⟨hp.1, lt_of_le_of_lt h12 hp.2⟩

/-- Raising the threshold can only lose top-`k` hits, in total. -/
theorem correctCountScores_thr_mono (rows : List (List ℚ)) (target : List ℤ) (k : Nat)
    (t1 t2 : ℚ) (h12 : t1 ≤ t2) :
    correctCountScores rows target k (some t2) ≤ correctCountScores rows target k (some t1) := by
  unfold correctCountScores
  exact List.sum_le_sum (fun rt _ => samplePairCount_thr_mono rt.1 rt.2 k t1 t2 h12)

/-- Claim C5: for a 2-D score input, fixed target and fixed `k`, the accuracy
table entry computed by `Accuracy.calculate` is monotonically non-increasing
in the threshold: if `t1 ≤ t2` (both non-None) then the `(k, t2)` entry is at
most the `(k, t1)` entry. -/
theorem accuracy_thr_monotone (rows : List (List ℚ)) (target : List ℤ) (topk : List Nat)
    (thrs : List (Option ℚ)) (k : Nat) (t1 t2 : ℚ)
    (hlen : rows.length = target.length) (hne : topk ≠ [])
    (hmax : maxList topk ≤ (rows.head?.getD []).length) (hrows : rows ≠ [])
    (h12 : t1 ≤ t2) :
    Accuracy.calculate (.scores rows) target topk thrs
      = .ok (.table (topk.map (fun a => thrs.map (fun thr => accEntry rows target a thr)))) ∧
    accEntry rows target k (some t2) ≤ accEntry rows target k (some t1) := by
  refine ⟨calculate_scores_ok rows target topk thrs hlen hne hmax hrows, ?_⟩
  unfold accEntry
  have hnn : (0:ℚ) ≤ 100 / (rows.length : ℚ) := by positivity
  exact mul_le_mul_of_nonneg_right
    (by exact_mod_cast correctCountScores_thr_mono rows target k t1 t2 h12) hnn

/-- Witness for C5 on a concrete 2-sample, 2-class score matrix with
thresholds `0 ≤ 1/2`. -/
theorem accuracy_thr_monotone_witness :
    Accuracy.calculate (.scores [[1, 0], [0, 1]]) [0, 0] [1] [some 0, some (1/2)]
      = .ok (.table ([1].map (fun a => [some 0, some (1/2)].map
          (fun thr => accEntry [[1, 0], [0, 1]] [0, 0] a thr)))) ∧
    accEntry [[1, 0], [0, 1]] [0, 0] 1 (some (1/2)) ≤ accEntry [[1, 0], [0, 1]] [0, 0] 1 (some 0) :=
  accuracy_thr_monotone [[1, 0], [0, 1]] [0, 0] [1] [some 0, some (1/2)] 1 0 (1/2)
    (by decide) (by decide) (by decide) (by decide) (by norm_num)

/-- A larger `k` keeps every hit found by a smaller `k`, per sample. -/
theorem samplePairCount_topk_mono (row : List ℚ) (t : ℤ) (thr : Option ℚ) (k1 k2 : Nat)
    (hk : k1 ≤ k2) :
    samplePairCount row t k1 thr ≤ samplePairCount row t k2 thr := by
  unfold samplePairCount topkPairs
  rw [show (ranked row).take k1 = ((ranked row).take k2).take k1 from by
    rw [List.take_take, min_eq_left hk]]
  conv_rhs => rw [← List.take_append_drop k1 ((ranked row).take k2)]
  rw [List.countP_append]
  exact Nat.le_add_right _ _

/-- A larger `k` keeps every hit found by a smaller `k`, in total. -/
theorem correctCountScores_topk_mono (rows : List (List ℚ)) (target : List ℤ)
    (thr : Option ℚ) (k1 k2 : Nat) (hk : k1 ≤ k2) :
    correctCountScores rows target k1 thr ≤ correctCountScores rows target k2 thr := by
  unfold correctCountScores
  exact List.sum_le_sum (fun rt _ => samplePairCount_topk_mono rt.1 rt.2 thr k1 k2 hk)

/-- Claim C10: for a 2-D score input, fixed target and fixed threshold, the
accuracy table entry computed by `Accuracy.calculate` is monotonically
non-decreasing in `k`: the correct-count for `k` sums a prefix of rank rows
that only grows with `k`. -/
theorem accuracy_topk_monotone (rows : List (List ℚ)) (target : List ℤ) (topk : List Nat)
    (thrs : List (Option ℚ)) (thr : Option ℚ) (k1 k2 : Nat)
    (hlen : rows.length = target.length) (hne : topk ≠ [])
    (hmax : maxList topk ≤ (rows.head?.getD []).length) (hrows : rows ≠ [])
    (hk : k1 ≤ k2) :
    Accuracy.calculate (.scores rows) target topk thrs
      = .ok (.table (topk.map (fun a => thrs.map (fun t => accEntry rows target a t)))) ∧
    accEntry rows target k1 thr ≤ accEntry rows target k2 thr := by
  refine ⟨calculate_scores_ok rows target topk thrs hlen hne hmax hrows, ?_⟩
  unfold accEntry
  have hnn : (0:ℚ) ≤ 100 / (rows.length : ℚ) := by positivity
  exact mul_le_mul_of_nonneg_right
    (by exact_mod_cast correctCountScores_topk_mono rows target thr k1 k2 hk) hnn

/-- Witness for C10 on a concrete 2-sample, 2-class score matrix with
`k1 = 1 ≤ k2 = 2`. -/
theorem accuracy_topk_monotone_witness :
    Accuracy.calculate (.scores [[1, 0], [0, 1]]) [1, 0] [1, 2] [none]
      = .ok (.table ([1, 2].map (fun a => [(none : Option ℚ)].map
          (fun t => accEntry [[1, 0], [0, 1]] [1, 0] a t)))) ∧
    accEntry [[1, 0], [0, 1]] [1, 0] 1 none ≤ accEntry [[1, 0], [0, 1]] [1, 0] 2 none :=
  accuracy_topk_monotone [[1, 0], [0, 1]] [1, 0] [1, 2] [none] none 1 2
    (by decide) (by decide) (by decide) (by decide) (by decide)

/-- Extracting `pred_score` from a run of score records recovers the score
matrix. -/
theorem exceptMap_getPredScore_map (l : List (List ℚ × ℤ)) :
    exceptMap getPredScore (l.map (fun rt => AccResult.score rt.1 rt.2))
      = .ok (l.map Prod.fst) := by
  induction l with
  | nil => rfl
  | cons a as ih => simp [exceptMap, getPredScore, ih]

/-- Extracting `gt_label` from a run of score records recovers the targets. -/
theorem gtLabel_map_score (l : List (List ℚ × ℤ)) :
    (l.map (fun rt => AccResult.score rt.1 rt.2)).map AccResult.gtLabel
      = l.map Prod.snd := by
  simp [List.map_map, AccResult.gtLabel, Function.comp]

/-- `Accuracy.compute_metrics` on a non-empty run of score records: the
targets and the score matrix are recovered per field and handed to
`Accuracy.calculate`, whose `ValueError` (if any) is annotated. -/
theorem compute_metrics_scores_run (a : List ℚ × ℤ) (l : List (List ℚ × ℤ))
    (topk : List Nat) (thrs : List (Option ℚ)) :
    Accuracy.compute_metrics topk thrs ((a :: l).map (fun rt => AccResult.score rt.1 rt.2))
      = (match Accuracy.calculate (.scores ((a :: l).map Prod.fst))
              ((a :: l).map Prod.snd) topk thrs with
         | .error (.valueError e) => .error (.valueError (e ++ evaluatorNote))
         | .error e => .error e
         | .ok (.table tbl) =>
           .ok (((topk.zip tbl).map (fun kt =>
             (thrs.zip kt.2).map (fun ta =>
               (s!"top{kt.1}" ++ (if decide (1 < thrs.length) then thrSuffix ta.1 else ""),
                ta.2)))).flatten)
         | .ok (.single _) => .error (.runtimeError "unreachable: 2-D scores yield a table")) := by
  simp only [List.map_cons, Accuracy.compute_metrics]
  rw [show AccResult.score a.1 a.2 :: l.map (fun rt => AccResult.score rt.1 rt.2)
      = (a :: l).map (fun rt => AccResult.score rt.1 rt.2) from rfl]
  rw [exceptMap_getPredScore_map, gtLabel_map_score]
  simp [AccResult.gtLabel]

/-- Claim C7: for a 2-D score input with `C` classes and `max(topk) > C`,
`Accuracy.calculate` fails with the input-validation `ValueError`, and
`Accuracy.compute_metrics` re-raises that error with added context naming the
evaluator configuration fields to fix, rather than suppressing it. -/
theorem topk_exceeds_classes (rows : List (List ℚ)) (gts : List ℤ) (topk : List Nat)
    (thrs : List (Option ℚ)) (hrows : rows ≠ []) (hlen : rows.length = gts.length)
    (hne : topk ≠ []) (hmax : maxList topk > (rows.head?.getD []).length) :
    Accuracy.calculate (.scores rows) gts topk thrs
      = .error (.valueError (topkErrMsg (maxList topk) (rows.head?.getD []).length)) ∧
    Accuracy.compute_metrics topk thrs ((rows.zip gts).map (fun rt => .score rt.1 rt.2))
      = .error (.valueError
          (topkErrMsg (maxList topk) (rows.head?.getD []).length ++ evaluatorNote)) := by
  have hcalc : Accuracy.calculate (.scores rows) gts topk thrs
      = .error (.valueError (topkErrMsg (maxList topk) (rows.head?.getD []).length)) := by
    simp only [Accuracy.calculate, PredInput.size0]
    rw [if_neg (show ¬ rows.length ≠ gts.length by omega), if_neg hne, if_pos hmax]
  refine ⟨hcalc, ?_⟩
  obtain ⟨r, rs, rfl⟩ : ∃ r rs, rows = r :: rs := by
    cases rows with
    | nil => exact absurd rfl hrows
    | cons r rs => exact ⟨r, rs, rfl⟩
  obtain ⟨g, gs, rfl⟩ : ∃ g gs, gts = g :: gs := by
    cases gts with
    | nil => simp at hlen
    | cons g gs => exact ⟨g, gs, rfl⟩
  have hfst : ((r, g) :: rs.zip gs).map Prod.fst = r :: rs :=
    List.map_fst_zip (r :: rs) (g :: gs) (le_of_eq hlen)
  have hsnd : ((r, g) :: rs.zip gs).map Prod.snd = g :: gs :=
    List.map_snd_zip (r :: rs) (g :: gs) (le_of_eq hlen.symm)
  rw [show (r :: rs).zip (g :: gs) = (r, g) :: rs.zip gs from rfl,
    compute_metrics_scores_run (r, g) (rs.zip gs) topk thrs, hfst, hsnd, hcalc]

/-- Witness for C7: one sample with two classes and requested top-3. -/
theorem topk_exceeds_classes_witness :
    Accuracy.calculate (.scores [[1/2, 1/2]]) [7] [3] [some 0]
      = .error (.valueError (topkErrMsg 3 2)) ∧
    Accuracy.compute_metrics [3] [some 0]
        (([[(1:ℚ)/2, 1/2]].zip [(7:ℤ)]).map (fun rt => .score rt.1 rt.2))
      = .error (.valueError (topkErrMsg 3 2 ++ evaluatorNote)) :=
  topk_exceeds_classes [[1/2, 1/2]] [7] [3] [some 0]
    (by decide) (by decide) (by decide) (by decide)

/-- Row sums unfold along the class axis. -/
theorem rowSum_cons (a : Bool) (as : List Bool) :
    rowSum (a :: as) = boolNat a + rowSum as := by
  simp [rowSum]

/-- Total sums unfold along the sample axis. -/
theorem totalSum_cons (r : List Bool) (m : List (List Bool)) :
    totalSum (r :: m) = rowSum r + totalSum m := by
  simp [totalSum]

/-- Total sum of a replicated matrix. -/
theorem totalSum_replicate (n : Nat) (r : List Bool) :
    totalSum (List.replicate n r) = n * rowSum r := by
  simp [totalSum, List.map_replicate, List.sum_replicate, smul_eq_mul]

/-- Summing an indicator over a list counts the satisfying elements. -/
theorem sum_boolNat_map {α : Type} (p : α → Bool) (L : List α) :
    (L.map (fun a => boolNat (p a))).sum = L.countP p := by
  induction L with
  | nil => rfl
  | cons a as ih =>
    rw [List.map_cons, List.sum_cons, ih, List.countP_cons]
    cases hpa : p a <;> simp [boolNat, hpa, Nat.add_comm]

/-- Counting one value in `range C`. -/
theorem countP_decide_range (C l : Nat) :
    (List.range C).countP (fun c => decide (c = l)) = if l < C then 1 else 0 := by
  induction C with
  | zero => simp
  | succ n ih =>
    rw [List.range_succ, List.countP_append, ih]
    rcases Nat.lt_trichotomy l n with h | h | h
    · have h1 : l < n + 1 := by omega
      have h2 : ¬ n = l := by omega
      simp [h, h1, h2]
    · subst h
      have h1 : ¬ l < l := Nat.lt_irrefl l
      have h2 : l < l + 1 := Nat.lt_succ_self l
      simp [h1, h2]
    · have h1 : ¬ l < n := by omega
      have h2 : ¬ l < n + 1 := by omega
      have h3 : ¬ n = l := by omega
      simp [h1, h2, h3]

/-- A one-hot row of a valid label has exactly one positive entry. -/
theorem rowSum_oneHot (C l : Nat) (h : l < C) : rowSum (oneHot C l) = 1 := by
  rw [rowSum, oneHot, List.map_map]
  rw [show (boolNat ∘ fun c => decide (c = l)) = fun c => boolNat (decide (c = l)) from rfl]
  rw [sum_boolNat_map, countP_decide_range, if_pos h]

/-- A one-hot matrix built from valid labels has one positive entry per
sample. -/
theorem totalSum_oneHot_map (C : Nat) (L : List Nat) (h : ∀ l ∈ L, l < C) :
    totalSum (L.map (oneHot C)) = L.length := by
  induction L with
  | nil => rfl
  | cons a as ih =>
    rw [List.map_cons, totalSum_cons, rowSum_oneHot C a (h a (by simp)),
      ih (fun l hl => h l (by simp [hl]))]
    simp [Nat.add_comm]

/-- A row of true positives has no more positive entries than the prediction
row. -/
theorem rowSum_andRow_le (r₁ r₂ : List Bool) : rowSum (andRow r₁ r₂) ≤ rowSum r₁ := by
  induction r₁ generalizing r₂ with
  | nil => simp [andRow, rowSum]
  | cons a as ih =>
    cases r₂ with
    | nil => simp [andRow, rowSum]
    | cons b bs =>
      simp only [andRow, List.zipWith_cons_cons, rowSum_cons]
      have : boolNat (a && b) ≤ boolNat a := by
        cases a <;> cases b <;> simp [boolNat]
      exact Nat.add_le_add this (by simpa [andRow] using ih bs)

/-- The total true-positive count is at most the total predicted-positive
count. -/
theorem totalSum_andMat_le (m₁ m₂ : List (List Bool)) :
    totalSum (andMat m₁ m₂) ≤ totalSum m₁ := by
  induction m₁ generalizing m₂ with
  | nil => simp [andMat, totalSum]
  | cons r rs ih =>
    cases m₂ with
    | nil => simp [andMat, totalSum]
    | cons q qs =>
      simp only [andMat, List.zipWith_cons_cons, totalSum_cons]
      exact Nat.add_le_add (rowSum_andRow_le r q) (by simpa [andMat] using ih qs)

/-- A precision/recall entry with zero true positives is 0 whatever the
member count. -/
theorem prec_zero (n : Nat) : prec 0 n = 0 := by
  simp [prec]

/-- Claim C4 (amended): on one-hot matrices built from equal-length
single-label predictions and targets, the micro reduction always returns
equal precision and recall, and the micro F1 also equals them whenever the
sample count is at most `200 * 2^23 = 1677721600` (so that the ε clamp in the
F1 denominator is inactive). -/
theorem micro_prf_equal (C : Nat) (preds targets : List Nat)
    (hlen : preds.length = targets.length)
    (hp : ∀ l ∈ preds, l < C) (ht : ∀ l ∈ targets, l < C) :
    ∃ r : ReduceOut,
      precision_recall_f1_support C (preds.map (oneHot C)) (targets.map (oneHot C))
          (some "micro") = .ok r ∧
      r.precision = r.recall' ∧
      (preds.length ≤ 1677721600 → r.f1_score = r.precision) := by
  have hred : precision_recall_f1_support C (preds.map (oneHot C)) (targets.map (oneHot C))
      (some "micro")
      = .ok ⟨[prec (totalSum (andMat (preds.map (oneHot C)) (targets.map (oneHot C))))
                (totalSum (preds.map (oneHot C)))],
             [prec (totalSum (andMat (preds.map (oneHot C)) (targets.map (oneHot C))))
                (totalSum (targets.map (oneHot C)))],
             [f1score
                (prec (totalSum (andMat (preds.map (oneHot C)) (targets.map (oneHot C))))
                  (totalSum (preds.map (oneHot C))))
                (prec (totalSum (andMat (preds.map (oneHot C)) (targets.map (oneHot C))))
                  (totalSum (targets.map (oneHot C))))],
             [((totalSum (targets.map (oneHot C)) : ℚ))]⟩ := by
    simp [precision_recall_f1_support, avgOptions]
  have hNp : totalSum (preds.map (oneHot C)) = preds.length := totalSum_oneHot_map C preds hp
  have hNg : totalSum (targets.map (oneHot C)) = targets.length := totalSum_oneHot_map C targets ht
  refine ⟨_, hred, ?_, ?_⟩
  · simp only [hNp, hNg, hlen]
  · intro hN
    simp only [hNp, hNg, ← hlen]
    have hTle : totalSum (andMat (preds.map (oneHot C)) (targets.map (oneHot C)))
        ≤ preds.length := by
      rw [← hNp]
      exact totalSum_andMat_le _ _
    set T := totalSum (andMat (preds.map (oneHot C)) (targets.map (oneHot C))) with hT
    rcases Nat.eq_zero_or_pos T with h0 | hpos
    · simp [h0, prec_zero, f1score_zero_zero]
    · have hN1 : 1 ≤ preds.length := le_trans hpos hTle
      have hNpos : (0:ℚ) < (preds.length : ℚ) := by exact_mod_cast hN1
      have hprecval : prec T preds.length = (T:ℚ) / (preds.length:ℚ) * 100 := by
        rw [prec, clampOne, max_eq_left (by exact_mod_cast hN1)]
      have hTpos : (0:ℚ) < (T:ℚ) := by exact_mod_cast hpos
      have hppos : 0 < prec T preds.length := by
        rw [hprecval]
        positivity
      have heps : f1Eps ≤ prec T preds.length + prec T preds.length := by
        rw [hprecval]
        have hle : ((preds.length : Nat) : ℚ) ≤ 1677721600 := by exact_mod_cast hN
        have h1 : (1:ℚ) ≤ (T:ℚ) := by exact_mod_cast hpos
        have key : f1Eps * (preds.length:ℚ) ≤ 200 * (T:ℚ) := by
          calc f1Eps * (preds.length:ℚ) ≤ f1Eps * 1677721600 :=
                mul_le_mul_of_nonneg_left hle (by norm_num [f1Eps])
            _ = 200 := by norm_num [f1Eps]
            _ ≤ 200 * (T:ℚ) := by nlinarith
        calc f1Eps ≤ 200 * (T:ℚ) / (preds.length:ℚ) := (le_div_iff₀ hNpos).mpr key
          _ = (T:ℚ) / (preds.length:ℚ) * 100 + (T:ℚ) / (preds.length:ℚ) * 100 := by ring
      have hstep : f1score (prec T preds.length) (prec T preds.length)
          = prec T preds.length := by
        rw [f1score, max_eq_left heps]
        have hne : prec T preds.length + prec T preds.length ≠ 0 := by
          have : 0 < prec T preds.length + prec T preds.length := by linarith
          exact ne_of_gt this
        field_simp
        ring
      rw [hstep]

/-- The micro branch of the reduction, unfolded. -/
theorem reduce_micro_eq (C : Nat) (pp gp : List (List Bool)) :
    precision_recall_f1_support C pp gp (some "micro")
      = .ok ⟨[prec (totalSum (andMat pp gp)) (totalSum pp)],
             [prec (totalSum (andMat pp gp)) (totalSum gp)],
             [f1score (prec (totalSum (andMat pp gp)) (totalSum pp))
                      (prec (totalSum (andMat pp gp)) (totalSum gp))],
             [(totalSum gp : ℚ)]⟩ := by
  simp [precision_recall_f1_support, avgOptions]

/-- Elementwise `&` of two equally replicated matrices. -/
theorem andMat_replicate (m : Nat) (x y : List Bool) :
    andMat (List.replicate m x) (List.replicate m y) = List.replicate m (andRow x y) := by
  induction m with
  | zero => rfl
  | succ n ih =>
    simp only [List.replicate_succ, andMat, List.zipWith_cons_cons]
    rw [show List.zipWith andRow (List.replicate n x) (List.replicate n y)
        = andMat (List.replicate n x) (List.replicate n y) from rfl, ih]

/-- Counterexample for C4: with `N = 2^31 = 2147483648` one-hot samples, all
predicted as class 0 but only the first sample labelled 0, micro precision and
micro recall are both `25 / 2^29 = 100 / N`, yet micro F1 is
`625 / 2^34 ≠ 25 / 2^29`, because `precision + recall < 2^(-23)` activates the
ε clamp in the F1 denominator. -/
theorem micro_prf_counterexample :
    precision_recall_f1_support 2 ((List.replicate 2147483648 0).map (oneHot 2))
        (((0 : Nat) :: List.replicate 2147483647 1).map (oneHot 2)) (some "micro")
      = .ok ⟨[25 / 2 ^ 29], [25 / 2 ^ 29], [625 / 2 ^ 34], [2147483648]⟩ ∧
    ((625 : ℚ) / 2 ^ 34) ≠ 25 / 2 ^ 29 := by
  constructor
  · have e1 : (List.replicate 2147483648 (0 : Nat)).map (oneHot 2)
        = List.replicate 2147483648 (oneHot 2 0) := by
      rw [List.map_replicate]
    have e2 : (((0 : Nat) :: List.replicate 2147483647 1).map (oneHot 2))
        = oneHot 2 0 :: List.replicate 2147483647 (oneHot 2 1) := by
      rw [List.map_cons, List.map_replicate]
    have hsplit : List.replicate 2147483648 (oneHot 2 0)
        = oneHot 2 0 :: List.replicate 2147483647 (oneHot 2 0) := by
      rw [show (2147483648 : Nat) = 2147483647 + 1 from by norm_num, List.replicate_succ]
    rw [e1, e2, hsplit, reduce_micro_eq]
    have hand : andMat (oneHot 2 0 :: List.replicate 2147483647 (oneHot 2 0))
        (oneHot 2 0 :: List.replicate 2147483647 (oneHot 2 1))
        = andRow (oneHot 2 0) (oneHot 2 0)
          :: List.replicate 2147483647 (andRow (oneHot 2 0) (oneHot 2 1)) := by
      simp only [andMat, List.zipWith_cons_cons]
      rw [show List.zipWith andRow (List.replicate 2147483647 (oneHot 2 0))
            (List.replicate 2147483647 (oneHot 2 1))
          = andMat (List.replicate 2147483647 (oneHot 2 0))
            (List.replicate 2147483647 (oneHot 2 1)) from rfl, andMat_replicate]
    rw [hand]
    have h1 : totalSum (andRow (oneHot 2 0) (oneHot 2 0)
        :: List.replicate 2147483647 (andRow (oneHot 2 0) (oneHot 2 1))) = 1 := by
      rw [totalSum_cons, totalSum_replicate]
      rfl
    have h2 : totalSum (oneHot 2 0 :: List.replicate 2147483647 (oneHot 2 0))
        = 2147483648 := by
      rw [totalSum_cons, totalSum_replicate]
      rfl
    have h3 : totalSum (oneHot 2 0 :: List.replicate 2147483647 (oneHot 2 1))
        = 2147483648 := by
      rw [totalSum_cons, totalSum_replicate]
      rfl
    rw [h1, h2, h3]
    have hp : prec 1 2147483648 = 25 / 2 ^ 29 := by
      rw [prec, clampOne, max_eq_left (by norm_num : (1 : ℚ) ≤ ((2147483648 : Nat) : ℚ))]
      norm_num
    have hf : f1score ((25 : ℚ) / 2 ^ 29) (25 / 2 ^ 29) = 625 / 2 ^ 34 := by
      rw [f1score, max_eq_right (by norm_num [f1Eps] : (25 : ℚ) / 2 ^ 29 + 25 / 2 ^ 29 ≤ f1Eps)]
      norm_num [f1Eps]
    rw [hp, hf]
    norm_num
  · norm_num

/-- Witness for C4 (amended): a small 2-sample run where precision, recall and
f1 all agree. -/
theorem micro_prf_equal_witness :
    ∃ r : ReduceOut,
      precision_recall_f1_support 2 ([0, 1].map (oneHot 2)) ([0, 0].map (oneHot 2))
          (some "micro") = .ok r ∧
      r.precision = r.recall' ∧ r.f1_score = r.precision := by
  obtain ⟨r, h1, h2, h3⟩ := micro_prf_equal 2 [0, 1] [0, 0] (by decide) (by decide) (by decide)
  exact ⟨r, h1, h2, h3 (by norm_num)⟩

/-- An error-propagating loop over concatenated input splits into two runs. -/
theorem exceptMap_append {α β : Type} (f : α → Except MetricError β) (l₁ l₂ : List α) :
    exceptMap f (l₁ ++ l₂) = exceptAppend (exceptMap f l₁) (exceptMap f l₂) := by
  induction l₁ with
  | nil =>
    cases h : exceptMap f l₂ <;> simp [exceptMap, exceptAppend, h]
  | cons a as ih =>
    have ih' : exceptMap f (as.append l₂)
        = exceptAppend (exceptMap f as) (exceptMap f l₂) := ih
    simp only [List.cons_append, exceptMap, ih']
    cases f a with
    | error e => rfl
    | ok b =>
      cases exceptMap f as with
      | error e => rfl
      | ok bs =>
        cases exceptMap f l₂ with
        | error e => rfl
        | ok b₂ => simp [exceptAppend]

/-- `Accuracy.process` distributes over batch concatenation when the two
fields of each batch agree in length. -/
theorem acc_process_append (d₁ d₂ : List AccDataDict) (p₁ p₂ : List AccPredDict)
    (h : d₁.length = p₁.length) :
    Accuracy.process (d₁ ++ d₂) (p₁ ++ p₂)
      = Accuracy.process d₁ p₁ ++ Accuracy.process d₂ p₂ := by
  unfold Accuracy.process
  rw [List.zip_append h, List.map_append]

/-- Accumulating over batches equals processing the concatenated run. -/
theorem acc_accumulate_eq (batches : List (List AccDataDict × List AccPredDict))
    (h : ∀ b ∈ batches, b.1.length = b.2.length) :
    Accuracy.accumulate batches
      = Accuracy.process (batches.map Prod.fst).flatten (batches.map Prod.snd).flatten := by
  induction batches with
  | nil => rfl
  | cons b bs ih =>
    simp only [Accuracy.accumulate, List.map_cons, List.flatten_cons]
    rw [acc_process_append _ _ _ _ (h b (by simp)), ih (fun x hx => h x (by simp [hx]))]

/-- `SingleLabelMetric.process` distributes over batch concatenation when the
two fields of each batch agree in length. -/
theorem sl_process_append (d₁ d₂ : List SLDataDict) (p₁ p₂ : List SLPredDict)
    (h : d₁.length = p₁.length) :
    SingleLabelMetric.process (d₁ ++ d₂) (p₁ ++ p₂)
      = exceptAppend (SingleLabelMetric.process d₁ p₁) (SingleLabelMetric.process d₂ p₂) := by
  unfold SingleLabelMetric.process
  rw [List.zip_append h, exceptMap_append]

/-- Accumulating over batches equals processing the concatenated run. -/
theorem sl_accumulate_eq (batches : List (List SLDataDict × List SLPredDict))
    (h : ∀ b ∈ batches, b.1.length = b.2.length) :
    SingleLabelMetric.accumulate batches
      = SingleLabelMetric.process (batches.map Prod.fst).flatten
          (batches.map Prod.snd).flatten := by
  induction batches with
  | nil => rfl
  | cons b bs ih =>
    simp only [SingleLabelMetric.accumulate, List.map_cons, List.flatten_cons]
    rw [sl_process_append _ _ _ _ (h b (by simp)), ih (fun x hx => h x (by simp [hx]))]

/-- Claim C8: splitting a fixed ordered run of samples into arbitrarily many
batches, processing each, and finalizing yields exactly the same metric
mapping as processing all samples as one batch, for both engines: the
per-field concatenation before reduction makes the result independent of the
batch partition. -/
theorem batch_partition_invariance :
    (∀ (topk : List Nat) (thrs : List (Option ℚ))
       (batches : List (List AccDataDict × List AccPredDict)),
      (∀ b ∈ batches, b.1.length = b.2.length) →
      Accuracy.compute_metrics topk thrs (Accuracy.accumulate batches)
        = Accuracy.compute_metrics topk thrs
            (Accuracy.process (batches.map Prod.fst).flatten (batches.map Prod.snd).flatten)) ∧
    (∀ (thrs : List (Option ℚ)) (items : List String) (average : Option String)
       (batches : List (List SLDataDict × List SLPredDict)),
      (∀ b ∈ batches, b.1.length = b.2.length) →
      SingleLabelMetric.finalize thrs items average (SingleLabelMetric.accumulate batches)
        = SingleLabelMetric.finalize thrs items average
            (SingleLabelMetric.process (batches.map Prod.fst).flatten
              (batches.map Prod.snd).flatten)) := by
  constructor
  · intro topk thrs batches h
    rw [acc_accumulate_eq batches h]
  · intro thrs items average batches h
    rw [sl_accumulate_eq batches h]

/-- Witness for C8: a concrete two-batch run for each engine. -/
theorem batch_partition_invariance_witness :
    Accuracy.compute_metrics [1] [some 0]
        (Accuracy.accumulate
          [([AccDataDict.mk 0], [AccPredDict.mk (some [1, 0]) 0 none]), ([AccDataDict.mk 1], [AccPredDict.mk (some [0, 1]) 0 none])])
      = Accuracy.compute_metrics [1] [some 0]
          (Accuracy.process
            (([([AccDataDict.mk 0], [AccPredDict.mk (some [1, 0]) 0 none]),
               ([AccDataDict.mk 1], [AccPredDict.mk (some [0, 1]) 0 none])].map Prod.fst).flatten)
            (([([AccDataDict.mk 0], [AccPredDict.mk (some [1, 0]) 0 none]),
               ([AccDataDict.mk 1], [AccPredDict.mk (some [0, 1]) 0 none])].map Prod.snd).flatten)) ∧
    SingleLabelMetric.finalize [some 0] ["precision"] (some "macro")
        (SingleLabelMetric.accumulate
          [([SLDataDict.mk 0 (some 2)], [SLPredDict.mk (some [1, 0]) 0 none none]),
           ([SLDataDict.mk 1 (some 2)], [SLPredDict.mk (some [0, 1]) 0 none none])])
      = SingleLabelMetric.finalize [some 0] ["precision"] (some "macro")
          (SingleLabelMetric.process
            (([([SLDataDict.mk 0 (some 2)], [SLPredDict.mk (some [1, 0]) 0 none none]),
               ([SLDataDict.mk 1 (some 2)], [SLPredDict.mk (some [0, 1]) 0 none none])].map Prod.fst).flatten)
            (([([SLDataDict.mk 0 (some 2)], [SLPredDict.mk (some [1, 0]) 0 none none]),
               ([SLDataDict.mk 1 (some 2)], [SLPredDict.mk (some [0, 1]) 0 none none])].map Prod.snd).flatten)) :=
  ⟨batch_partition_invariance.1 [1] [some 0]
      [([AccDataDict.mk 0], [AccPredDict.mk (some [1, 0]) 0 none]), ([AccDataDict.mk 1], [AccPredDict.mk (some [0, 1]) 0 none])]
      (by decide),
   batch_partition_invariance.2 [some 0] ["precision"] (some "macro")
      [([SLDataDict.mk 0 (some 2)], [SLPredDict.mk (some [1, 0]) 0 none none]),
       ([SLDataDict.mk 1 (some 2)], [SLPredDict.mk (some [0, 1]) 0 none none])]
      (by decide)⟩
